import Mathlib

/-!
Verification development for the bearer-token authentication middleware of
micro-stakes-api (package `middleware`, plus the identity-resolution stage
described by the specification and exercised by the middleware test suite).

The Go middleware is shallowly embedded: JSON claim maps become association
lists over a small JSON value type, the JWKS HTTP fetch becomes an oracle
function from URL to result, RSA signature verification becomes an abstract
boolean check, and the compact-token parser of the JWT library becomes a
decode oracle.  Every verification pipeline also returns the list of URLs it
fetched, so that ordering properties (fetch happened or not) are provable.
-/

namespace MicroStakes

/-- Dynamic JSON values as they appear in JWT header and claim maps
(`map[string]interface` on the Go side).  Numbers are modelled as integers:
the tokens of this system carry unix-second timestamps. -/
inductive JVal where
  | jstr (s : String)
  | jnum (n : Int)
  | jbool (b : Bool)
  | jnull
deriving DecidableEq, Repr

/-- A JSON object (Go `map[string]interface`), as an association list. -/
abbrev JMap := List (String × JVal)

/-- Lookup of a key in a claim map; `none` models an absent key. -/
def getClaim (m : JMap) (k : String) : Option JVal :=
  (m.find? (fun p => p.fst == k)).map Prod.snd

/-- Value of one base64url alphabet character (RFC 4648 url-safe alphabet,
as used by Go `base64.RawURLEncoding`); `none` for characters outside the
alphabet, which Go reports as corrupt input. -/
def b64Val (c : Char) : Option Nat :=
  if 'A' ≤ c ∧ c ≤ 'Z' then some (c.toNat - 65)
  else if 'a' ≤ c ∧ c ≤ 'z' then some (c.toNat - 97 + 26)
  else if '0' ≤ c ∧ c ≤ '9' then some (c.toNat - 48 + 52)
  else if c = '-' then some 62
  else if c = '_' then some 63
  else none

/-- Reassemble decoded 6-bit groups into bytes, four groups to three bytes,
with Go RawURLEncoding handling of the final partial quantum: a remainder of
one character is corrupt input, remainders of two or three characters yield
one or two bytes (trailing bits dropped, as in the non-strict Go decoder). -/
def b64Chunks : List Nat → Option (List Nat)
  | [] => some []
  | [_] => none
  | [a, b] => some [a * 4 + b / 16]
  | [a, b, c] => some [a * 4 + b / 16, b % 16 * 16 + c / 4]
  | a :: b :: c :: d :: rest =>
    (b64Chunks rest).map
      (fun tail => (a * 4 + b / 16) :: (b % 16 * 16 + c / 4) :: (c % 4 * 64 + d) :: tail)

/-- Model of Go `base64.RawURLEncoding.DecodeString`: unpadded base64url to a
byte list, `none` on corrupt input. -/
def b64urlDecode (s : String) : Option (List Nat) :=
  (s.data.mapM b64Val).bind b64Chunks

/-- Big-endian byte list to natural number, as Go `big.Int.SetBytes`. -/
def bytesBE (bs : List Nat) : Nat :=
  bs.foldl (fun acc b => acc * 256 + b) 0

/-- Model of Go `big.Int.Int64` applied to a non-negative big integer
followed by conversion to `int`: two-complement truncation to 64 bits. -/
def int64OfNat (n : Nat) : Int :=
  let m := n % 2 ^ 64
  if m < 2 ^ 63 then Int.ofNat m else Int.ofNat m - 2 ^ 64

/-- One JWKS entry, mirroring the `JWK` struct of the middleware package
(fields `kid`, `kty`, `alg`, `use`, `n`, `e` of the JSON document). -/
structure JWK where
  Kid : String
  Kty : String
  Alg : String
  Use : String
  N : String
  E : String
deriving DecidableEq, Repr

/-- The JWKS document, mirroring the `JWKS` struct (field `keys`). -/
structure JWKS where
  Keys : List JWK
deriving DecidableEq, Repr

/-- Decoded RSA public key, mirroring Go `rsa.PublicKey` (big-integer
modulus `N`, machine-int exponent `E`). -/
structure PublicKey where
  N : Nat
  E : Int
deriving DecidableEq, Repr

/-- Keycloak connection configuration, mirroring `config.KeycloakConfig`
(the two fields the middleware reads). -/
structure KeycloakConfig where
  URL : String
  Realm : String
deriving DecidableEq, Repr

/-- Distinct failure sites of the key-resolution path, one per `fmt.Errorf`
site in `fetchPublicKey` and `parseRSAPublicKey`. -/
inductive KeyErr where
  | fetchFailed
  | jwksDecodeFailed
  | kidMissing
  | kidNotFound (kid : String)
  | nDecodeFailed
  | eDecodeFailed
deriving DecidableEq, Repr

/-- Embedding of `parseRSAPublicKey`: decode the base64url modulus and
exponent of a JWKS entry into an `rsa.PublicKey`. -/
def parseRSAPublicKey (jwk : JWK) : Except KeyErr PublicKey :=
  match b64urlDecode jwk.N with
  | none => .error KeyErr.nDecodeFailed
  | some nBytes =>
    match b64urlDecode jwk.E with
    | none => .error KeyErr.eDecodeFailed
    | some eBytes => .ok { N := bytesBE nBytes, E := int64OfNat (bytesBE eBytes) }

/-- Outcome of the HTTP GET of the JWKS document combined with the JSON
decoding of its body, the two effects the Go code performs back to back:
transport failure (`http.Get` error), undecodable body (`json.Decode`
error), or a decoded `JWKS`. -/
inductive HttpResult where
  | transportError
  | invalidJSON
  | ok (jwks : JWKS)
deriving DecidableEq, Repr

/-- The JWKS discovery URL built by `fetchPublicKey` via `fmt.Sprintf`. -/
def jwksURL (cfg : KeycloakConfig) : String :=
  cfg.URL ++ "/realms/" ++ cfg.Realm ++ "/protocol/openid-connect/certs"

/-- Embedding of `fetchPublicKey`, given the HTTP world as an oracle from
URL to result.  Faithful to the Go ordering: the GET and the JSON decode
happen first, the `kid` header lookup and type assertion only afterwards,
then the linear scan of the key set and the modulus and exponent decoding.
The second component is the list of URLs fetched by the call. -/
def fetchPublicKey (httpGet : String → HttpResult) (cfg : KeycloakConfig)
    (header : JMap) : Except KeyErr PublicKey × List String :=
  let url := jwksURL cfg
  (match httpGet url with
   | HttpResult.transportError => .error KeyErr.fetchFailed
   | HttpResult.invalidJSON => .error KeyErr.jwksDecodeFailed
   | HttpResult.ok jwks =>
     match getClaim header "kid" with
     | some (JVal.jstr kid) =>
       match jwks.Keys.find? (fun key => key.Kid == kid) with
       | some key => parseRSAPublicKey key
       | none => .error (KeyErr.kidNotFound kid)
     | _ => .error KeyErr.kidMissing,
   [url])

/-- Signing algorithms registered by the JWT library; a token whose `alg`
header names anything else fails compact parsing. -/
inductive Alg where
  | RS256 | RS384 | RS512
  | PS256 | PS384 | PS512
  | HS256 | HS384 | HS512
  | ES256 | ES384 | ES512
  | EdDSA | algNone
deriving DecidableEq, Repr

/-- Model of the JWT library method registry: map the `alg` header string
to a registered signing method, `none` when unavailable. -/
def getSigningMethod : String → Option Alg
  | "RS256" => some Alg.RS256
  | "RS384" => some Alg.RS384
  | "RS512" => some Alg.RS512
  | "PS256" => some Alg.PS256
  | "PS384" => some Alg.PS384
  | "PS512" => some Alg.PS512
  | "HS256" => some Alg.HS256
  | "HS384" => some Alg.HS384
  | "HS512" => some Alg.HS512
  | "ES256" => some Alg.ES256
  | "ES384" => some Alg.ES384
  | "ES512" => some Alg.ES512
  | "EdDSA" => some Alg.EdDSA
  | "none" => some Alg.algNone
  | _ => none

/-- The type assertion of the keyfunc in the middleware: true exactly for
the plain RSA PKCS1v15 family (the concrete `SigningMethodRSA` type); the
PSS, HMAC, ECDSA, EdDSA and none methods are different concrete types and
fail the assertion. -/
def Alg.isRSA : Alg → Bool
  | Alg.RS256 | Alg.RS384 | Alg.RS512 => true
  | _ => false

/-- Result of compact-token parsing by the JWT library, as a decode oracle
output: either the token string is malformed (wrong segment count, bad
base64, bad JSON) or it parses into an unverified header map, an unverified
claim map and a signature (abstracted to a number). -/
inductive CompactToken where
  | malformed
  | parsed (header : JMap) (claims : JMap) (sig : Nat)
deriving DecidableEq, Repr

/-- Failure of the keyfunc passed to the token parser: either the signing
method type assertion failed, or `fetchPublicKey` failed. -/
inductive KeyfuncErr where
  | unexpectedSigningMethod
  | keyError (e : KeyErr)
deriving DecidableEq, Repr

/-- Failures of token verification; the middleware maps every one of them
to the same HTTP response. -/
inductive VerifyErr where
  | malformedToken
  | unknownAlg
  | keyfuncFailed (e : KeyfuncErr)
  | invalidSignature
  | invalidClaims
deriving DecidableEq, Repr

/-- Claim-time validation performed by the library after the signature
check, restricted to the expiry claim, the one time claim of this system
(the specification pipeline: signature checked, then expiry checked).  An
absent `exp` passes because expiry is not required by default; a present
`exp` must lie strictly in the future; a non-numeric `exp` is invalid. -/
def claimsExpiryValid (now : Int) (claims : JMap) : Bool :=
  match getClaim claims "exp" with
  | none => true
  | some (JVal.jnum e) => decide (now < e)
  | some _ => false

/-- Embedding of the `jwt.Parse` call of the middleware together with its
keyfunc: compact parsing (decode oracle), signing-method resolution from the
`alg` header, the RSA type assertion of the keyfunc, the JWKS-based key
resolution, the abstract signature check, and expiry validation.  The
second component is the list of JWKS URLs fetched during verification. -/
def jwtParse (httpGet : String → HttpResult) (cfg : KeycloakConfig)
    (sigOk : Alg → PublicKey → JMap → JMap → Nat → Bool) (now : Int)
    (tok : CompactToken) : Except VerifyErr JMap × List String :=
  match tok with
  | CompactToken.malformed => (.error VerifyErr.malformedToken, [])
  | CompactToken.parsed header claims sig =>
    match getClaim header "alg" with
    | some (JVal.jstr s) =>
      match getSigningMethod s with
      | some alg =>
        if alg.isRSA then
          match fetchPublicKey httpGet cfg header with
          | (Except.error e, log) => (.error (VerifyErr.keyfuncFailed (KeyfuncErr.keyError e)), log)
          | (Except.ok pk, log) =>
            if sigOk alg pk header claims sig then
              if claimsExpiryValid now claims then (.ok claims, log)
              else (.error VerifyErr.invalidClaims, log)
            else (.error VerifyErr.invalidSignature, log)
        else (.error (VerifyErr.keyfuncFailed KeyfuncErr.unexpectedSigningMethod), [])
      | none => (.error VerifyErr.unknownAlg, [])
    | _ => (.error VerifyErr.unknownAlg, [])

/-- Split a character list at every occurrence of the separator, keeping
empty fields, as Go `strings.Split` with a one-character separator. -/
def splitChar (sep : Char) : List Char → List (List Char)
  | [] => [[]]
  | c :: rest =>
    if c = sep then [] :: splitChar sep rest
    else
      match splitChar sep rest with
      | [] => [[c]]
      | h :: t => (c :: h) :: t

/-- Model of Go `strings.Split` with a single-character separator: splits on
every occurrence, never collapses, and maps the empty string to one empty
field. -/
def stringsSplit (s : String) (sep : Char) : List String :=
  (splitChar sep s.data).map (fun cs => String.mk cs)

/-- HTTP-visible outcome of the middleware in the version that attaches raw
claims: a structured rejection (status, error message, code) with the
pipeline aborted, or pass-through to the downstream handler with the
context values set for `userID` and `email` (Go dynamic values, `none`
models an absent claim stored as nil). -/
inductive GateOutcome where
  | rejected (status : Nat) (msg : String) (code : String)
  | passed (userID : Option JVal) (email : Option JVal)
deriving DecidableEq, Repr

/-- Embedding of `AuthMiddleware` as found in the middleware package:
header presence check, exact two-part `Bearer` split, token verification,
uniform rejection of any verification failure, and context attachment of
the raw `sub` and `email` claims on success.  The decode oracle stands for
the compact-token parser of the library; the second component is the list
of JWKS URLs fetched while handling the request. -/
def AuthMiddleware (httpGet : String → HttpResult) (cfg : KeycloakConfig)
    (decode : String → CompactToken)
    (sigOk : Alg → PublicKey → JMap → JMap → Nat → Bool) (now : Int)
    (authHeader : String) : GateOutcome × List String :=
  if authHeader = "" then
    (GateOutcome.rejected 401 "Authorization header required" "MISSING_TOKEN", [])
  else
    if (stringsSplit authHeader ' ').length = 2
        ∧ (stringsSplit authHeader ' ').headD "" = "Bearer" then
      match jwtParse httpGet cfg sigOk now (decode ((stringsSplit authHeader ' ').getD 1 "")) with
      | (Except.error _, log) =>
        (GateOutcome.rejected 401 "Invalid or expired token" "INVALID_TOKEN", log)
      | (Except.ok claims, log) =>
        (GateOutcome.passed (getClaim claims "sub") (getClaim claims "email"), log)
    else
      (GateOutcome.rejected 401 "Invalid authorization format" "INVALID_TOKEN_FORMAT", [])

/-- Result of the injected user-resolution collaborator
(`GetUserByIdentityID`): a stored user (numeric ID and email), the
distinguished not-found error, or any other error. -/
inductive UserLookup where
  | found (id : Nat) (email : String)
  | notFound
  | otherError
deriving DecidableEq, Repr

/-- HTTP-visible outcome of the middleware version that resolves the token
subject against the user store: rejection, or pass-through with the
resolved numeric user ID rendered as a string and the stored user email. -/
inductive ResolvedOutcome where
  | rejected (status : Nat) (msg : String) (code : String)
  | passed (userID : String) (email : String)
deriving DecidableEq, Repr

/-- Modelled from the spec: the identity-resolving `AuthMiddleware`
variant whose implementation file is absent from the sources (only its
test suite is present).  Per the specification of the Request Gate and the
Identity Resolution Adapter: after the same header parsing and token
verification as above, extract `sub` from the verified claims, failing
with 401 INVALID_SUBJECT_CLAIM when absent or not a string; call the
user-resolution collaborator with the subject and the fixed provider tag;
map not-found to 401 USER_NOT_FOUND and any other collaborator error to
500 INTERNAL_ERROR; on success attach the numeric user ID rendered as a
string together with the stored email and continue.  Error messages and
codes follow the middleware test suite. -/
def AuthMiddlewareResolve (httpGet : String → HttpResult) (cfg : KeycloakConfig)
    (decode : String → CompactToken)
    (sigOk : Alg → PublicKey → JMap → JMap → Nat → Bool) (now : Int)
    (getUserByIdentityID : String → String → UserLookup)
    (authHeader : String) : ResolvedOutcome × List String :=
  if authHeader = "" then
    (ResolvedOutcome.rejected 401 "Authorization header required" "MISSING_TOKEN", [])
  else
    if (stringsSplit authHeader ' ').length = 2
        ∧ (stringsSplit authHeader ' ').headD "" = "Bearer" then
      match jwtParse httpGet cfg sigOk now (decode ((stringsSplit authHeader ' ').getD 1 "")) with
      | (Except.error _, log) =>
        (ResolvedOutcome.rejected 401 "Invalid or expired token" "INVALID_TOKEN", log)
      | (Except.ok claims, log) =>
        match getClaim claims "sub" with
        | some (JVal.jstr sub) =>
          match getUserByIdentityID sub "keycloak" with
          | UserLookup.found uid email =>
            (ResolvedOutcome.passed (Nat.repr uid) email, log)
          | UserLookup.notFound =>
            (ResolvedOutcome.rejected 401 "User not found" "USER_NOT_FOUND", log)
          | UserLookup.otherError =>
            (ResolvedOutcome.rejected 500 "Failed to resolve user" "INTERNAL_ERROR", log)
        | _ =>
          (ResolvedOutcome.rejected 401 "Invalid subject claim in token" "INVALID_SUBJECT_CLAIM", log)
    else
      (ResolvedOutcome.rejected 401 "Invalid authorization format" "INVALID_TOKEN_FORMAT", [])

end MicroStakes

namespace MicroStakes

/-- Property over the identity-resolving middleware: the outcome carries an
identity that was fully resolved against the user store — some bearer token
in the header verified, its subject claim was a string, the user-resolution
collaborator returned a stored user with the attached email, and the
attached identifier is the decimal rendering of the stored numeric user
ID. -/
def FullyResolved (httpGet : String → HttpResult) (cfg : KeycloakConfig)
    (decode : String → CompactToken)
    (sigOk : Alg → PublicKey → JMap → JMap → Nat → Bool) (now : Int)
    (svc : String → String → UserLookup) (authHeader uid email : String) : Prop :=
  ∃ t claims sub id,
    stringsSplit authHeader ' ' = ["Bearer", t]
    ∧ (jwtParse httpGet cfg sigOk now (decode t)).fst = Except.ok claims
    ∧ getClaim claims "sub" = some (JVal.jstr sub)
    ∧ svc sub "keycloak" = UserLookup.found id email
    ∧ uid = Nat.repr id

/- Concrete fixtures reused by the witness theorems below.  The modulus and
exponent string AQAB is base64url for the bytes 1, 0, 1, hence 65537. -/

def exKey : JWK :=
  { Kid := "test-key-id", Kty := "RSA", Alg := "RS256", Use := "sig", N := "AQAB", E := "AQAB" }

def exJWKS : JWKS := { Keys := [exKey] }

def exCfg : KeycloakConfig := { URL := "http://keycloak", Realm := "test-realm" }

def exHttp : String → HttpResult := fun _ => HttpResult.ok exJWKS

def exPk : PublicKey := { N := 65537, E := 65537 }

def exHdr : JMap := [("alg", JVal.jstr "RS256"), ("kid", JVal.jstr "test-key-id")]

def exHdrNoKid : JMap := [("alg", JVal.jstr "RS256")]

def exClaims : JMap := [("sub", JVal.jstr "user-123"), ("email", JVal.jstr "user@example.com")]

def exClaimsNoSub : JMap := [("email", JVal.jstr "user@example.com")]

def exSigTrue : Alg → PublicKey → JMap → JMap → Nat → Bool := fun _ _ _ _ _ => true

def exDecodeOf (tok : CompactToken) : String → CompactToken := fun _ => tok

def exTok : CompactToken := CompactToken.parsed exHdr exClaims 0

def exTokNoSub : CompactToken := CompactToken.parsed exHdr exClaimsNoSub 0

def exSvcFound : String → String → UserLookup := fun _ _ => UserLookup.found 42 "user@example.com"

def exSvcNotFound : String → String → UserLookup := fun _ _ => UserLookup.notFound

def exSvcErr : String → String → UserLookup := fun _ _ => UserLookup.otherError

/-! Basic lemmas about the gate pipeline. -/

theorem stringsSplit_empty : stringsSplit "" ' ' = [""] := rfl

theorem ne_empty_of_bearer_split {a t : String}
    (h : stringsSplit a ' ' = ["Bearer", t]) : a ≠ "" := by
  intro ha
  subst ha
  rw [stringsSplit_empty] at h
  injection h with h1 _
  exact absurd h1 (by decide)

theorem eq_two_list {l : List String} (h2 : l.length = 2) (hh : l.headD "" = "Bearer") :
    l = ["Bearer", l.getD 1 ""] := by
  rcases l with _ | ⟨a, _ | ⟨b, _ | ⟨c, r⟩⟩⟩ <;> simp_all [List.getD]

theorem AuthMiddleware_bearer {httpGet : String → HttpResult} {cfg : KeycloakConfig}
    {decode : String → CompactToken}
    {sigOk : Alg → PublicKey → JMap → JMap → Nat → Bool} {now : Int}
    {authHeader t : String}
    (hsplit : stringsSplit authHeader ' ' = ["Bearer", t]) :
    AuthMiddleware httpGet cfg decode sigOk now authHeader =
      (match jwtParse httpGet cfg sigOk now (decode t) with
       | (Except.error _, log) =>
         (GateOutcome.rejected 401 "Invalid or expired token" "INVALID_TOKEN", log)
       | (Except.ok claims, log) =>
         (GateOutcome.passed (getClaim claims "sub") (getClaim claims "email"), log)) := by
  have hne := ne_empty_of_bearer_split hsplit
  unfold AuthMiddleware
  rw [if_neg hne, hsplit]
  simp [List.getD]

theorem AuthMiddlewareResolve_bearer {httpGet : String → HttpResult} {cfg : KeycloakConfig}
    {decode : String → CompactToken}
    {sigOk : Alg → PublicKey → JMap → JMap → Nat → Bool} {now : Int}
    {svc : String → String → UserLookup} {authHeader t : String}
    (hsplit : stringsSplit authHeader ' ' = ["Bearer", t]) :
    AuthMiddlewareResolve httpGet cfg decode sigOk now svc authHeader =
      (match jwtParse httpGet cfg sigOk now (decode t) with
       | (Except.error _, log) =>
         (ResolvedOutcome.rejected 401 "Invalid or expired token" "INVALID_TOKEN", log)
       | (Except.ok claims, log) =>
         match getClaim claims "sub" with
         | some (JVal.jstr sub) =>
           (match svc sub "keycloak" with
            | UserLookup.found uid email => (ResolvedOutcome.passed (Nat.repr uid) email, log)
            | UserLookup.notFound =>
              (ResolvedOutcome.rejected 401 "User not found" "USER_NOT_FOUND", log)
            | UserLookup.otherError =>
              (ResolvedOutcome.rejected 500 "Failed to resolve user" "INTERNAL_ERROR", log))
         | _ =>
           (ResolvedOutcome.rejected 401 "Invalid subject claim in token" "INVALID_SUBJECT_CLAIM", log)) := by
  have hne := ne_empty_of_bearer_split hsplit
  unfold AuthMiddlewareResolve
  rw [if_neg hne, hsplit]
  simp [List.getD]

theorem jwtParse_ok_inv {httpGet : String → HttpResult} {cfg : KeycloakConfig}
    {sigOk : Alg → PublicKey → JMap → JMap → Nat → Bool} {now : Int}
    {header claims : JMap} {sig : Nat} {res : JMap}
    (h : (jwtParse httpGet cfg sigOk now (CompactToken.parsed header claims sig)).fst
        = Except.ok res) :
    res = claims ∧ claimsExpiryValid now claims = true := by
  unfold jwtParse at h
  repeat' split at h
  all_goals simp_all

end MicroStakes

namespace MicroStakes

/-- C1: for every request whose bearer token verifies and whose subject
claim resolves through the user-resolution collaborator to a stored user,
the gate attaches the numeric user ID rendered as a string together with
the stored user email to the request context before the downstream handler
runs; the attached identifier is the resolved application user ID, not the
raw token subject. -/
theorem c1_attaches_resolved_identity (httpGet : String → HttpResult) (cfg : KeycloakConfig)
    (decode : String → CompactToken)
    (sigOk : Alg → PublicKey → JMap → JMap → Nat → Bool) (now : Int)
    (svc : String → String → UserLookup) (authHeader t : String)
    (claims : JMap) (sub : String) (uid : Nat) (email : String)
    (hsplit : stringsSplit authHeader ' ' = ["Bearer", t])
    (hverify : (jwtParse httpGet cfg sigOk now (decode t)).fst = Except.ok claims)
    (hsub : getClaim claims "sub" = some (JVal.jstr sub))
    (hsvc : svc sub "keycloak" = UserLookup.found uid email) :
    (AuthMiddlewareResolve httpGet cfg decode sigOk now svc authHeader).fst
      = ResolvedOutcome.passed (Nat.repr uid) email := by
  rw [AuthMiddlewareResolve_bearer hsplit]
  rcases hp : jwtParse httpGet cfg sigOk now (decode t) with ⟨vr, log⟩
  rw [hp] at hverify
  cases vr with
  | error er => simp at hverify
  | ok c =>
    have hc : c = claims := by simpa using hverify
    subst hc
    simp [hsub, hsvc]

/-- C1 witness: subject user-123 resolving to user ID 42 yields context
value 42 as a string, with the stored email. -/
theorem c1_attaches_resolved_identity_witness :
    (AuthMiddlewareResolve exHttp exCfg (exDecodeOf exTok) exSigTrue 0 exSvcFound "Bearer t").fst
      = ResolvedOutcome.passed "42" "user@example.com" :=
  c1_attaches_resolved_identity exHttp exCfg (exDecodeOf exTok) exSigTrue 0 exSvcFound
    "Bearer t" "t" exClaims "user-123" 42 "user@example.com"
    (by decide) rfl (by decide) rfl

/-- C2: every request that the identity-resolving gate passes through to a
downstream handler carries an identity fully resolved against the user
store — the outcome is never a missing, nil or merely token-derived
identifier.  Any other request ends in a structured rejection, the only
other constructor of the outcome type. -/
theorem c2_passed_implies_fully_resolved (httpGet : String → HttpResult) (cfg : KeycloakConfig)
    (decode : String → CompactToken)
    (sigOk : Alg → PublicKey → JMap → JMap → Nat → Bool) (now : Int)
    (svc : String → String → UserLookup) (authHeader uid email : String)
    (hpass : (AuthMiddlewareResolve httpGet cfg decode sigOk now svc authHeader).fst
        = ResolvedOutcome.passed uid email) :
    FullyResolved httpGet cfg decode sigOk now svc authHeader uid email := by
  by_cases h0 : authHeader = ""
  · subst h0
    unfold AuthMiddlewareResolve at hpass
    simp at hpass
  · by_cases hfmt : (stringsSplit authHeader ' ').length = 2
        ∧ (stringsSplit authHeader ' ').headD "" = "Bearer"
    · have hsplit := eq_two_list hfmt.1 hfmt.2
      rw [AuthMiddlewareResolve_bearer hsplit] at hpass
      rcases hp : jwtParse httpGet cfg sigOk now
          (decode ((stringsSplit authHeader ' ').getD 1 "")) with ⟨vr, log⟩
      rw [hp] at hpass
      cases vr with
      | error er => simp at hpass
      | ok claims =>
        rcases hsub : getClaim claims "sub" with _ | v
        · simp only [hsub] at hpass
          simp at hpass
        · cases v with
          | jstr sub =>
            simp only [hsub] at hpass
            rcases hsvc : svc sub "keycloak" with ⟨id, em2⟩ | _ | _
            · simp only [hsvc] at hpass
              simp at hpass
              obtain ⟨h1, h2⟩ := hpass
              exact ⟨_, claims, sub, id, hsplit, by rw [hp], hsub,
                by rw [hsvc, h2], h1.symm⟩
            · simp only [hsvc] at hpass
              simp at hpass
            · simp only [hsvc] at hpass
              simp at hpass
          | jnum n =>
            simp only [hsub] at hpass
            simp at hpass
          | jbool b =>
            simp only [hsub] at hpass
            simp at hpass
          | jnull =>
            simp only [hsub] at hpass
            simp at hpass
    · unfold AuthMiddlewareResolve at hpass
      rw [if_neg h0, if_neg hfmt] at hpass
      simp at hpass

/-- C2 witness: a concrete passing request is fully resolved. -/
theorem c2_passed_implies_fully_resolved_witness :
    FullyResolved exHttp exCfg (exDecodeOf exTok) exSigTrue 0 exSvcFound
      "Bearer t" "42" "user@example.com" :=
  c2_passed_implies_fully_resolved exHttp exCfg (exDecodeOf exTok) exSigTrue 0 exSvcFound
    "Bearer t" "42" "user@example.com" rfl

/-- C3: for a verified token, the identity-resolution stage has exactly the
three outcomes of the specification: a missing or non-string subject claim
is rejected with 401 INVALID_SUBJECT_CLAIM, a collaborator not-found result
with 401 USER_NOT_FOUND, and any other collaborator error with 500
INTERNAL_ERROR. -/
theorem c3_resolution_outcomes (httpGet : String → HttpResult) (cfg : KeycloakConfig)
    (decode : String → CompactToken)
    (sigOk : Alg → PublicKey → JMap → JMap → Nat → Bool) (now : Int)
    (svc : String → String → UserLookup) (authHeader t : String) (claims : JMap)
    (hsplit : stringsSplit authHeader ' ' = ["Bearer", t])
    (hverify : (jwtParse httpGet cfg sigOk now (decode t)).fst = Except.ok claims) :
    ((∀ k, getClaim claims "sub" ≠ some (JVal.jstr k)) →
      (AuthMiddlewareResolve httpGet cfg decode sigOk now svc authHeader).fst
        = ResolvedOutcome.rejected 401 "Invalid subject claim in token" "INVALID_SUBJECT_CLAIM")
    ∧ (∀ sub, getClaim claims "sub" = some (JVal.jstr sub) →
        svc sub "keycloak" = UserLookup.notFound →
        (AuthMiddlewareResolve httpGet cfg decode sigOk now svc authHeader).fst
          = ResolvedOutcome.rejected 401 "User not found" "USER_NOT_FOUND")
    ∧ (∀ sub, getClaim claims "sub" = some (JVal.jstr sub) →
        svc sub "keycloak" = UserLookup.otherError →
        (AuthMiddlewareResolve httpGet cfg decode sigOk now svc authHeader).fst
          = ResolvedOutcome.rejected 500 "Failed to resolve user" "INTERNAL_ERROR") := by
  rcases hp : jwtParse httpGet cfg sigOk now (decode t) with ⟨vr, log⟩
  rw [hp] at hverify
  have hv : vr = Except.ok claims := hverify
  subst hv
  refine ⟨?_, ?_, ?_⟩
  · intro hnosub
    rw [AuthMiddlewareResolve_bearer hsplit, hp]
    rcases hk : getClaim claims "sub" with _ | v
    · simp [hk]
    · cases v with
      | jstr k => exact absurd hk (hnosub k)
      | jnum n => simp [hk]
      | jbool b => simp [hk]
      | jnull => simp [hk]
  · intro sub hsub hnf
    rw [AuthMiddlewareResolve_bearer hsplit, hp]
    simp [hsub, hnf]
  · intro sub hsub herr2
    rw [AuthMiddlewareResolve_bearer hsplit, hp]
    simp [hsub, herr2]

/-- C3 witness: the three resolution outcomes at concrete inputs. -/
theorem c3_resolution_outcomes_witness :
    (AuthMiddlewareResolve exHttp exCfg (exDecodeOf exTokNoSub) exSigTrue 0 exSvcFound "Bearer t").fst
      = ResolvedOutcome.rejected 401 "Invalid subject claim in token" "INVALID_SUBJECT_CLAIM"
    ∧ (AuthMiddlewareResolve exHttp exCfg (exDecodeOf exTok) exSigTrue 0 exSvcNotFound "Bearer t").fst
      = ResolvedOutcome.rejected 401 "User not found" "USER_NOT_FOUND"
    ∧ (AuthMiddlewareResolve exHttp exCfg (exDecodeOf exTok) exSigTrue 0 exSvcErr "Bearer t").fst
      = ResolvedOutcome.rejected 500 "Failed to resolve user" "INTERNAL_ERROR" :=
  ⟨(c3_resolution_outcomes exHttp exCfg (exDecodeOf exTokNoSub) exSigTrue 0 exSvcFound
      "Bearer t" "t" exClaimsNoSub (by decide) rfl).1
      (by intro k h
          rw [show getClaim exClaimsNoSub "sub" = none from rfl] at h
          exact Option.noConfusion h),
   (c3_resolution_outcomes exHttp exCfg (exDecodeOf exTok) exSigTrue 0 exSvcNotFound
      "Bearer t" "t" exClaims (by decide) rfl).2.1 "user-123" (by decide) rfl,
   (c3_resolution_outcomes exHttp exCfg (exDecodeOf exTok) exSigTrue 0 exSvcErr
      "Bearer t" "t" exClaims (by decide) rfl).2.2 "user-123" (by decide) rfl⟩

/-- C4: every failure inside token verification, whatever its stage, maps
to the single uniform response 401 with code INVALID_TOKEN and the generic
message; the response is a constant independent of the error value, so
callers cannot distinguish which verification stage failed. -/
theorem c4_uniform_invalid_token (httpGet : String → HttpResult) (cfg : KeycloakConfig)
    (decode : String → CompactToken)
    (sigOk : Alg → PublicKey → JMap → JMap → Nat → Bool) (now : Int)
    (authHeader t : String) (e : VerifyErr)
    (hsplit : stringsSplit authHeader ' ' = ["Bearer", t])
    (herr : (jwtParse httpGet cfg sigOk now (decode t)).fst = Except.error e) :
    (AuthMiddleware httpGet cfg decode sigOk now authHeader).fst
      = GateOutcome.rejected 401 "Invalid or expired token" "INVALID_TOKEN" := by
  rw [AuthMiddleware_bearer hsplit]
  rcases hp : jwtParse httpGet cfg sigOk now (decode t) with ⟨vr, log⟩
  rw [hp] at herr
  cases vr with
  | error e2 => simp
  | ok claims => simp at herr

/-- C4 witness: a malformed compact token is rejected with the uniform
INVALID_TOKEN response. -/
theorem c4_uniform_invalid_token_witness :
    (AuthMiddleware exHttp exCfg (exDecodeOf CompactToken.malformed) exSigTrue 0 "Bearer junk").fst
      = GateOutcome.rejected 401 "Invalid or expired token" "INVALID_TOKEN" :=
  c4_uniform_invalid_token exHttp exCfg (exDecodeOf CompactToken.malformed) exSigTrue 0
    "Bearer junk" "junk" VerifyErr.malformedToken (by decide) rfl

/-- C5: a parsed token whose declared alg header resolves to a registered
signing method outside the RSA-signature family fails verification at the
keyfunc type assertion, and the fetch trace is empty: no HTTP GET to the
JWKS certs endpoint is performed for such a token. -/
theorem c5_non_rsa_alg_fails_before_fetch (httpGet : String → HttpResult)
    (cfg : KeycloakConfig) (sigOk : Alg → PublicKey → JMap → JMap → Nat → Bool)
    (now : Int) (header claims : JMap) (sig : Nat) (s : String) (a : Alg)
    (halg : getClaim header "alg" = some (JVal.jstr s))
    (hmethod : getSigningMethod s = some a)
    (hnotRSA : a.isRSA = false) :
    jwtParse httpGet cfg sigOk now (CompactToken.parsed header claims sig)
      = (Except.error (VerifyErr.keyfuncFailed KeyfuncErr.unexpectedSigningMethod), []) := by
  simp [jwtParse, halg, hmethod, hnotRSA]

/-- C5 witness: an HS256 token fails with no fetch performed. -/
theorem c5_non_rsa_alg_fails_before_fetch_witness :
    jwtParse exHttp exCfg exSigTrue 0
        (CompactToken.parsed [("alg", JVal.jstr "HS256"), ("kid", JVal.jstr "test-key-id")] exClaims 0)
      = (Except.error (VerifyErr.keyfuncFailed KeyfuncErr.unexpectedSigningMethod), []) :=
  c5_non_rsa_alg_fails_before_fetch exHttp exCfg exSigTrue 0 _ exClaims 0 "HS256" Alg.HS256
    (by decide) (by decide) (by decide)

/-- C6 counterexample: a parsed RSA token with no kid in its header still
triggers a JWKS HTTP fetch — the fetch trace is nonempty — refuting the
claimed ordering that the kid check precedes the key-material fetch; the
failure itself is the key-id-missing error as claimed. -/
theorem c6_counterexample :
    (jwtParse exHttp exCfg exSigTrue 0 (CompactToken.parsed exHdrNoKid exClaims 0)).fst
        = Except.error (VerifyErr.keyfuncFailed (KeyfuncErr.keyError KeyErr.kidMissing))
    ∧ (jwtParse exHttp exCfg exSigTrue 0 (CompactToken.parsed exHdrNoKid exClaims 0)).snd ≠ [] :=
  ⟨rfl, by decide⟩

/-- C6 amended: for every parsed token with an RSA-family algorithm whose
unverified header lacks a string-typed kid, when the JWKS fetch and decode
succeed the verifier fails closed with the key-id-missing error — a
key-resolution failure, never a signature failure — but the kid check runs
inside the key-fetch routine after the JWKS document is retrieved, so
exactly one JWKS HTTP fetch occurs for such a token. -/
theorem c6_kid_missing_is_key_resolution (httpGet : String → HttpResult) (cfg : KeycloakConfig)
    (sigOk : Alg → PublicKey → JMap → JMap → Nat → Bool) (now : Int)
    (header claims : JMap) (sig : Nat) (s : String) (a : Alg) (jwks : JWKS)
    (halg : getClaim header "alg" = some (JVal.jstr s))
    (hmethod : getSigningMethod s = some a)
    (hRSA : a.isRSA = true)
    (hkid : ∀ k, getClaim header "kid" ≠ some (JVal.jstr k))
    (hhttp : httpGet (jwksURL cfg) = HttpResult.ok jwks) :
    jwtParse httpGet cfg sigOk now (CompactToken.parsed header claims sig)
      = (Except.error (VerifyErr.keyfuncFailed (KeyfuncErr.keyError KeyErr.kidMissing)),
         [jwksURL cfg]) := by
  rcases hk : getClaim header "kid" with _ | v
  · simp [jwtParse, halg, hmethod, hRSA, fetchPublicKey, hhttp, hk]
  · cases v with
    | jstr k => exact absurd hk (hkid k)
    | jnum n => simp [jwtParse, halg, hmethod, hRSA, fetchPublicKey, hhttp, hk]
    | jbool b => simp [jwtParse, halg, hmethod, hRSA, fetchPublicKey, hhttp, hk]
    | jnull => simp [jwtParse, halg, hmethod, hRSA, fetchPublicKey, hhttp, hk]

/-- C6 amended witness: the concrete kid-less RSA token fails with the
key-id-missing error after exactly one fetch. -/
theorem c6_kid_missing_is_key_resolution_witness :
    jwtParse exHttp exCfg exSigTrue 0 (CompactToken.parsed exHdrNoKid exClaims 0)
      = (Except.error (VerifyErr.keyfuncFailed (KeyfuncErr.keyError KeyErr.kidMissing)),
         [jwksURL exCfg]) :=
  c6_kid_missing_is_key_resolution exHttp exCfg exSigTrue 0 exHdrNoKid exClaims 0
    "RS256" Alg.RS256 exJWKS (by decide) (by decide) (by decide)
    (by intro k h
        rw [show getClaim exHdrNoKid "kid" = none from rfl] at h
        exact Option.noConfusion h)
    rfl

/-- C7: the gate answers 401 MISSING_TOKEN exactly when the Authorization
header is empty or absent, and 401 INVALID_TOKEN_FORMAT exactly when the
header is nonempty but does not split on single spaces into exactly two
parts whose first part is literally Bearer; both outcomes are rejections,
so no downstream handler executes. -/
theorem c7_header_format_gate (httpGet : String → HttpResult) (cfg : KeycloakConfig)
    (decode : String → CompactToken)
    (sigOk : Alg → PublicKey → JMap → JMap → Nat → Bool) (now : Int)
    (authHeader : String) :
    ((AuthMiddleware httpGet cfg decode sigOk now authHeader).fst
        = GateOutcome.rejected 401 "Authorization header required" "MISSING_TOKEN"
      ↔ authHeader = "")
    ∧ ((AuthMiddleware httpGet cfg decode sigOk now authHeader).fst
        = GateOutcome.rejected 401 "Invalid authorization format" "INVALID_TOKEN_FORMAT"
      ↔ authHeader ≠ ""
          ∧ ¬((stringsSplit authHeader ' ').length = 2
              ∧ (stringsSplit authHeader ' ').headD "" = "Bearer")) := by
  by_cases h0 : authHeader = ""
  · subst h0
    unfold AuthMiddleware
    simp
  · by_cases hfmt : (stringsSplit authHeader ' ').length = 2
        ∧ (stringsSplit authHeader ' ').headD "" = "Bearer"
    · unfold AuthMiddleware
      rw [if_neg h0, if_pos hfmt]
      rcases hp : jwtParse httpGet cfg sigOk now
          (decode ((stringsSplit authHeader ' ').getD 1 "")) with ⟨vr, log⟩
      cases vr <;> simp_all
    · unfold AuthMiddleware
      rw [if_neg h0, if_neg hfmt]
      simp_all

/-- C7 witness: the three scenario headers of the specification. -/
theorem c7_header_format_gate_witness :
    (AuthMiddleware exHttp exCfg (exDecodeOf CompactToken.malformed) exSigTrue 0 "").fst
      = GateOutcome.rejected 401 "Authorization header required" "MISSING_TOKEN"
    ∧ (AuthMiddleware exHttp exCfg (exDecodeOf CompactToken.malformed) exSigTrue 0 "Token abc").fst
      = GateOutcome.rejected 401 "Invalid authorization format" "INVALID_TOKEN_FORMAT"
    ∧ (AuthMiddleware exHttp exCfg (exDecodeOf CompactToken.malformed) exSigTrue 0 "Bearer a b").fst
      = GateOutcome.rejected 401 "Invalid authorization format" "INVALID_TOKEN_FORMAT" :=
  ⟨(c7_header_format_gate exHttp exCfg (exDecodeOf CompactToken.malformed) exSigTrue 0 "").1.mpr rfl,
   (c7_header_format_gate exHttp exCfg (exDecodeOf CompactToken.malformed) exSigTrue 0
      "Token abc").2.mpr ⟨by decide, by decide⟩,
   (c7_header_format_gate exHttp exCfg (exDecodeOf CompactToken.malformed) exSigTrue 0
      "Bearer a b").2.mpr ⟨by decide, by decide⟩⟩

/-- C8: a bearer token whose exp claim lies in the past at verification
time is always rejected with 401 INVALID_TOKEN, for every signature
checker and key set — in particular even when the signature is valid under
a key present in the fetched signing-key set. -/
theorem c8_expired_always_rejected (httpGet : String → HttpResult) (cfg : KeycloakConfig)
    (decode : String → CompactToken)
    (sigOk : Alg → PublicKey → JMap → JMap → Nat → Bool) (now : Int)
    (authHeader t : String) (header claims : JMap) (sig : Nat) (e : Int)
    (hsplit : stringsSplit authHeader ' ' = ["Bearer", t])
    (hdec : decode t = CompactToken.parsed header claims sig)
    (hexp : getClaim claims "exp" = some (JVal.jnum e))
    (hpast : e < now) :
    (AuthMiddleware httpGet cfg decode sigOk now authHeader).fst
      = GateOutcome.rejected 401 "Invalid or expired token" "INVALID_TOKEN" := by
  rw [AuthMiddleware_bearer hsplit]
  rcases hp : jwtParse httpGet cfg sigOk now (decode t) with ⟨vr, log⟩
  cases vr with
  | error e2 => simp
  | ok res =>
    exfalso
    have hfst : (jwtParse httpGet cfg sigOk now (decode t)).fst = Except.ok res := by
      rw [hp]
    rw [hdec] at hfst
    obtain ⟨-, hval⟩ := jwtParse_ok_inv hfst
    unfold claimsExpiryValid at hval
    rw [hexp] at hval
    simp at hval
    omega

/-- C8 witness: an expired token with an always-true signature checker and
its kid in the key set is still rejected. -/
theorem c8_expired_always_rejected_witness :
    (AuthMiddleware exHttp exCfg
        (exDecodeOf (CompactToken.parsed exHdr (("exp", JVal.jnum 100) :: exClaims) 0))
        exSigTrue 200 "Bearer expired").fst
      = GateOutcome.rejected 401 "Invalid or expired token" "INVALID_TOKEN" :=
  c8_expired_always_rejected exHttp exCfg
    (exDecodeOf (CompactToken.parsed exHdr (("exp", JVal.jnum 100) :: exClaims) 0))
    exSigTrue 200 "Bearer expired" "expired" exHdr (("exp", JVal.jnum 100) :: exClaims) 0 100
    (by decide) rfl (by decide) (by decide)

/-- C9: round-trip — a parsed token with an RSA-family algorithm whose kid
selects a decodable key in the fetched set, whose signature checks under
that key, and whose exp lies in the future, verifies successfully and the
resulting claims are exactly the signed payload. -/
theorem c9_roundtrip (httpGet : String → HttpResult) (cfg : KeycloakConfig)
    (sigOk : Alg → PublicKey → JMap → JMap → Nat → Bool) (now : Int)
    (header payload : JMap) (sig : Nat) (s kid : String) (a : Alg)
    (jwks : JWKS) (key : JWK) (pk : PublicKey) (e : Int)
    (halg : getClaim header "alg" = some (JVal.jstr s))
    (hmethod : getSigningMethod s = some a)
    (hRSA : a.isRSA = true)
    (hkid : getClaim header "kid" = some (JVal.jstr kid))
    (hhttp : httpGet (jwksURL cfg) = HttpResult.ok jwks)
    (hfind : jwks.Keys.find? (fun key => key.Kid == kid) = some key)
    (hkey : parseRSAPublicKey key = Except.ok pk)
    (hsig : sigOk a pk header payload sig = true)
    (hexp : getClaim payload "exp" = some (JVal.jnum e))
    (hfuture : now < e) :
    jwtParse httpGet cfg sigOk now (CompactToken.parsed header payload sig)
      = (Except.ok payload, [jwksURL cfg]) := by
  simp [jwtParse, halg, hmethod, hRSA, fetchPublicKey, hhttp, hkid, hfind, hkey, hsig,
    claimsExpiryValid, hexp, hfuture]

/-- C9 witness: a concrete RS256 token with future expiry round-trips to
its own payload. -/
theorem c9_roundtrip_witness :
    jwtParse exHttp exCfg exSigTrue 0
        (CompactToken.parsed exHdr (("exp", JVal.jnum 99) :: exClaims) 7)
      = (Except.ok (("exp", JVal.jnum 99) :: exClaims), [jwksURL exCfg]) :=
  c9_roundtrip exHttp exCfg exSigTrue 0 exHdr (("exp", JVal.jnum 99) :: exClaims) 7
    "RS256" "test-key-id" Alg.RS256 exJWKS exKey exPk 99
    (by decide) (by decide) (by decide) (by decide) rfl (by decide) rfl rfl (by decide) (by decide)

/-- C10: a well-formed token with an RSA-family algorithm, a kid present in
the fetched signing-key set and a valid signature, carrying no exp claim at
all, verifies successfully and the request proceeds to the downstream
handler: absent expiry is treated as non-expiring rather than rejected. -/
theorem c10_absent_exp_passes (httpGet : String → HttpResult) (cfg : KeycloakConfig)
    (decode : String → CompactToken)
    (sigOk : Alg → PublicKey → JMap → JMap → Nat → Bool) (now : Int)
    (authHeader t : String) (header payload : JMap) (sig : Nat) (s kid : String) (a : Alg)
    (jwks : JWKS) (key : JWK) (pk : PublicKey)
    (hsplit : stringsSplit authHeader ' ' = ["Bearer", t])
    (hdec : decode t = CompactToken.parsed header payload sig)
    (halg : getClaim header "alg" = some (JVal.jstr s))
    (hmethod : getSigningMethod s = some a)
    (hRSA : a.isRSA = true)
    (hkid : getClaim header "kid" = some (JVal.jstr kid))
    (hhttp : httpGet (jwksURL cfg) = HttpResult.ok jwks)
    (hfind : jwks.Keys.find? (fun key => key.Kid == kid) = some key)
    (hkey : parseRSAPublicKey key = Except.ok pk)
    (hsig : sigOk a pk header payload sig = true)
    (hnoexp : getClaim payload "exp" = none) :
    (AuthMiddleware httpGet cfg decode sigOk now authHeader).fst
      = GateOutcome.passed (getClaim payload "sub") (getClaim payload "email") := by
  have hrun : jwtParse httpGet cfg sigOk now (CompactToken.parsed header payload sig)
      = (Except.ok payload, [jwksURL cfg]) := by
    simp [jwtParse, halg, hmethod, hRSA, fetchPublicKey, hhttp, hkid, hfind, hkey, hsig,
      claimsExpiryValid, hnoexp]
  rw [AuthMiddleware_bearer hsplit, hdec, hrun]

/-- C10 witness: a valid token with no exp claim reaches the handler with
the raw sub and email claims attached. -/
theorem c10_absent_exp_passes_witness :
    (AuthMiddleware exHttp exCfg (exDecodeOf exTok) exSigTrue 0 "Bearer t").fst
      = GateOutcome.passed (some (JVal.jstr "user-123")) (some (JVal.jstr "user@example.com")) :=
  c10_absent_exp_passes exHttp exCfg (exDecodeOf exTok) exSigTrue 0 "Bearer t" "t"
    exHdr exClaims 0 "RS256" "test-key-id" Alg.RS256 exJWKS exKey exPk
    (by decide) rfl (by decide) (by decide) (by decide) (by decide) rfl (by decide) rfl rfl (by decide)

end MicroStakes
